import Mathlib

/-!
# Verification of the `sv` bisect session engine

A shallow embedding, in Lean 4, of the bisect session engine of the `sv`
command-line companion for Subversion, together with proofs about it.

The embedded code comes from:
* `src/commands/bisect/good.rs` (`do_work`),
* `src/commands/bisect/skip.rs` (`Skip::run`),
* `src/commands/bisect/replay.rs` (`Replay::run`),
* `src/util.rs` (`data_directory`, `parse_svn_date`).

Parts of the engine that those files call but whose sources are not in the
repository snapshot (the bisect store operations `get_bisect_data`,
`mark_skipped_revisions`, `log_bisect_command`, `append_to_log`,
`gather_revisions`, `get_waiting_status`, and the candidate selector) are
modelled from the specification; each such definition's doc comment says so.
External collaborators (the `svn` client, `/bin/sh`, the `chrono` date
parser, the file system) are modelled abstractly, as the specification
directs.
-/

namespace SvBisect

/-- A revision number: an unsigned integer identifying one commit,
totally ordered (spec §3). -/
abbrev Rev := Nat

/-- The persisted bisect session state (spec §3 `BisectData`):
the `good`/`bad`/`skip` classification sets and the ordered,
append-only command log. -/
structure BisectData where
  good : Finset Rev
  bad : Finset Rev
  skip : Finset Rev
  log : List String
deriving DecidableEq

/-- The empty session state: nothing classified, empty log. -/
def emptyData : BisectData := ⟨∅, ∅, ∅, []⟩

/-- Modelled from the spec: `mark_good(revs)` of the Bisect Session Store
(§4.2), whose source is not in the repository snapshot — move each revision
into `good`, removing it from any other set it currently occupies. -/
def mark_good (revs : Finset Rev) (d : BisectData) : BisectData :=
  { good := d.good ∪ revs, bad := d.bad \ revs, skip := d.skip \ revs, log := d.log }

/-- Modelled from the spec: `mark_bad(revs)` of the Bisect Session Store
(§4.2), whose source is not in the repository snapshot — move each revision
into `bad`, removing it from any other set it currently occupies. -/
def mark_bad (revs : Finset Rev) (d : BisectData) : BisectData :=
  { good := d.good \ revs, bad := d.bad ∪ revs, skip := d.skip \ revs, log := d.log }

/-- Modelled from the spec: `mark_skipped(revs)` of the Bisect Session Store
(§4.2), whose source is not in the repository snapshot — move each revision
into `skip`, removing it from any other set it currently occupies. -/
def mark_skipped (revs : Finset Rev) (d : BisectData) : BisectData :=
  { good := d.good \ revs, bad := d.bad \ revs, skip := d.skip ∪ revs, log := d.log }

/-- One classification operation applied to the store. -/
inductive MarkOp
  | markGood (revs : Finset Rev)
  | markBad (revs : Finset Rev)
  | markSkipped (revs : Finset Rev)

/-- Apply one classification operation. -/
def applyOp (op : MarkOp) (d : BisectData) : BisectData :=
  match op with
  | .markGood revs => mark_good revs d
  | .markBad revs => mark_bad revs d
  | .markSkipped revs => mark_skipped revs d

/-- Apply a sequence of classification operations, oldest first. -/
def applyOps (ops : List MarkOp) (d : BisectData) : BisectData :=
  ops.foldl (fun d op => applyOp op d) d

/-- The three classification sets are pairwise disjoint (spec §3, §8). -/
def PairwiseDisjoint (d : BisectData) : Prop :=
  Disjoint d.good d.bad ∧ Disjoint d.good d.skip ∧ Disjoint d.bad d.skip

lemma pairwiseDisjoint_empty : PairwiseDisjoint emptyData := by
  refine ⟨?_, ?_, ?_⟩ <;> simp [emptyData]

lemma disjoint_union_sdiff {a b r : Finset Rev} (h : Disjoint a b) :
    Disjoint (a ∪ r) (b \ r) := by
  rw [Finset.disjoint_union_left]
  exact ⟨h.mono_right (Finset.sdiff_subset), Finset.disjoint_sdiff⟩

lemma disjoint_sdiff_sdiff {a b r : Finset Rev} (h : Disjoint a b) :
    Disjoint (a \ r) (b \ r) :=
  (h.mono_left (Finset.sdiff_subset)).mono_right (Finset.sdiff_subset)

lemma pairwiseDisjoint_applyOp (op : MarkOp) {d : BisectData}
    (h : PairwiseDisjoint d) : PairwiseDisjoint (applyOp op d) := by
  obtain ⟨hgb, hgs, hbs⟩ := h
  cases op with
  | markGood revs =>
      exact ⟨disjoint_union_sdiff hgb, disjoint_union_sdiff hgs,
        disjoint_sdiff_sdiff hbs⟩
  | markBad revs =>
      exact ⟨(disjoint_union_sdiff hgb.symm).symm, disjoint_sdiff_sdiff hgs,
        disjoint_union_sdiff hbs⟩
  | markSkipped revs =>
      exact ⟨disjoint_sdiff_sdiff hgb, (disjoint_union_sdiff hgs.symm).symm,
        (disjoint_union_sdiff hbs.symm).symm⟩

lemma pairwiseDisjoint_applyOps (ops : List MarkOp) {d : BisectData}
    (h : PairwiseDisjoint d) : PairwiseDisjoint (applyOps ops d) := by
  induction ops generalizing d with
  | nil => exact h
  | cons op ops ih => exact ih (pairwiseDisjoint_applyOp op h)

/-- Claim C5: After any sequence of `good`/`bad`/`skip` classification
operations on the initially empty session state, the three classification
sets are pairwise disjoint; and classifying a revision puts it in the
target set while removing it from each of the other two sets — so a
revision previously classified elsewhere is moved, not duplicated. -/
theorem c5_classification_sets_disjoint :
    (∀ ops : List MarkOp, PairwiseDisjoint (applyOps ops emptyData)) ∧
    (∀ (d : BisectData) (r : Rev),
      (r ∈ (mark_good {r} d).good ∧ r ∉ (mark_good {r} d).bad ∧
        r ∉ (mark_good {r} d).skip) ∧
      (r ∈ (mark_bad {r} d).bad ∧ r ∉ (mark_bad {r} d).good ∧
        r ∉ (mark_bad {r} d).skip) ∧
      (r ∈ (mark_skipped {r} d).skip ∧ r ∉ (mark_skipped {r} d).good ∧
        r ∉ (mark_skipped {r} d).bad)) := by
  constructor
  · intro ops
    exact pairwiseDisjoint_applyOps ops pairwiseDisjoint_empty
  · intro d r
    refine ⟨⟨?_, ?_, ?_⟩, ⟨?_, ?_, ?_⟩, ⟨?_, ?_, ?_⟩⟩ <;>
      simp [mark_good, mark_bad, mark_skipped]

/-! ## Candidate Selector (spec §4.3) -/

/-- The Candidate Selector's outcome (spec §4.3). -/
inductive Outcome
  | instruction (r : Rev)
  | converged (r : Rev)
  | exhausted
  | notStarted
deriving DecidableEq

/-- Largest element of a finite set of revisions (0 on the empty set). -/
def maxRev (s : Finset Rev) : Rev := s.fold max 0 id

/-- Smallest element of a finite set of revisions (its largest element is
used as the fold seed, so the result is the set's minimum whenever the set
is non-empty). -/
def minRev (s : Finset Rev) : Rev := s.fold min (maxRev s) id

/-- Modelled from the spec: orientation detection and boundary computation
of the Candidate Selector (§4.3 steps 1–2), whose source is not in the
repository snapshot.  Returns `(lo, hi, badBoundary)`: the search interval
is the open range `(lo, hi)`, and `badBoundary` is the bad revision reported
on convergence.  Forward orientation (defect introduced) when the lowest bad
revision is above the highest good one; otherwise the reverse orientation
(defect fixed) applies. -/
def searchBounds (d : BisectData) : Rev × Rev × Rev :=
  if maxRev d.good < minRev d.bad
  then (maxRev d.good, minRev d.bad, minRev d.bad)
  else (maxRev d.bad, minRev d.good, maxRev d.bad)

/-- Modelled from the spec: the raw candidate list (§4.3 step 2) — all
revisions of the tracked path's history `hist` strictly between the nearest
good and bad boundaries. -/
def rawCandidates (hist : List Rev) (d : BisectData) : List Rev :=
  hist.filter (fun r => decide ((searchBounds d).1 < r ∧ r < (searchBounds d).2.1))

/-- Modelled from the spec: the filtered candidate list (§4.3 step 3) —
the raw candidates with every revision in `skip` removed. -/
def filteredCandidates (hist : List Rev) (d : BisectData) : List Rev :=
  (rawCandidates hist d).filter (fun r => decide (r ∉ d.skip))

/-- Modelled from the spec: the pure Candidate Selector `next(data)`
(§4.3), whose source is not in the repository snapshot.  `hist` is the
ascending list of revisions that exist in the repository's history for the
tracked path. -/
def next (hist : List Rev) (d : BisectData) : Outcome :=
  if d.good = ∅ ∨ d.bad = ∅ then Outcome.notStarted
  else
    let filtered := filteredCandidates hist d
    if filtered.isEmpty then
      if (rawCandidates hist d).isEmpty then Outcome.converged (searchBounds d).2.2
      else Outcome.exhausted
    else Outcome.instruction (filtered.getD (filtered.length / 2) 0)

/-- Claim C2, as stated, is false at this snapshot: history `[0,1,2,3]`,
`good = {0}`, `bad = {3}`, nothing skipped.  The filtered candidate list is
`[1,2]` (even length 2); the selector picks index `2 / 2 = 1`, i.e. revision
`2`, which is not in the earlier (lower-index) half `[1]` of the list. -/
theorem c2_even_length_lower_half_counterexample :
    next [0, 1, 2, 3] ⟨{0}, {3}, ∅, []⟩ = Outcome.instruction 2 ∧
    filteredCandidates [0, 1, 2, 3] ⟨{0}, {3}, ∅, []⟩ = [1, 2] ∧
    (2 : Rev) ∉ (filteredCandidates [0, 1, 2, 3] ⟨{0}, {3}, ∅, []⟩).take
      ((filteredCandidates [0, 1, 2, 3] ⟨{0}, {3}, ∅, []⟩).length / 2) := by
  refine ⟨?_, ?_, ?_⟩ <;> decide

/-- Claim C2, amended: For every `BisectData` snapshot with both boundaries
established and a non-empty filtered candidate list, the Candidate Selector
returns `Instruction(r)` where `r` is the element at index `length / 2`
(rounding down) of the filtered list; for every even-length filtered list
this index is the first index of the *later* (upper) half, i.e. the selected
element belongs to the second half of the list, not the earlier half. -/
theorem c2_selector_midpoint (hist : List Rev) (d : BisectData)
    (hg : d.good ≠ ∅) (hb : d.bad ≠ ∅)
    (hne : filteredCandidates hist d ≠ []) :
    next hist d = Outcome.instruction
      ((filteredCandidates hist d).getD ((filteredCandidates hist d).length / 2) 0) ∧
    ((filteredCandidates hist d).length % 2 = 0 →
      (filteredCandidates hist d).getD ((filteredCandidates hist d).length / 2) 0 ∈
        (filteredCandidates hist d).drop ((filteredCandidates hist d).length / 2)) := by
  constructor
  · rw [next, if_neg (by simp [hg, hb])]
    simp only [List.isEmpty_iff]
    rw [if_neg hne]
  · intro _
    have hlen : 0 < (filteredCandidates hist d).length :=
      List.length_pos.mpr hne
    have hidx : (filteredCandidates hist d).length / 2 <
        (filteredCandidates hist d).length :=
      Nat.div_lt_self hlen (by norm_num)
    rw [List.getD_eq_getElem _ _ hidx, List.drop_eq_getElem_cons hidx]
    exact List.mem_cons_self _ _

/-- Witness for `c2_selector_midpoint`: the spec's own §8 fixture —
candidates `101..104` between `good = {100}` and `bad = {105}`; the
selector picks index `4 / 2 = 2`, i.e. revision `103`, which lies in the
later half `[103, 104]`. -/
theorem c2_selector_midpoint_witness :
    next [100, 101, 102, 103, 104, 105] ⟨{100}, {105}, ∅, []⟩ =
      Outcome.instruction 103 ∧
    (103 : Rev) ∈ (filteredCandidates [100, 101, 102, 103, 104, 105]
      ⟨{100}, {105}, ∅, []⟩).drop 2 := by
  have h := c2_selector_midpoint [100, 101, 102, 103, 104, 105]
    ⟨{100}, {105}, ∅, []⟩ (by decide) (by decide) (by decide)
  have h1 := h.1
  have h2 := h.2 (by decide)
  refine ⟨?_, ?_⟩
  · rw [h1]; decide
  · revert h2; decide

/-! ## Session commands (spec §4.4) -/

/-- The fields of `svn::workingcopy_info()` that the bisect commands use:
the working-copy root path and the currently checked-out revision. -/
structure WcInfo where
  wc_path : String
  commit_rev : Rev
deriving DecidableEq

/-- The error conditions surfaced by the embedded commands (spec §7).
`general` corresponds to the code's `SvError::General(msg)`. -/
inductive SvErr
  | credentialsFailed
  | notAWorkingCopy
  | noActiveSession
  | invalidRevision (tok : String)
  | saveFailed
  | general (msg : String)
deriving DecidableEq

/-- The environment a session command runs in.  It abstracts the external
collaborators and the I/O outcomes of one invocation:
`creds_ok` — whether `crate::auth::get_credentials()` succeeds;
`wc_info` — the result of `svn::workingcopy_info()` (`none` when the
current directory is not inside a working copy);
`resolve` — `gather_revisions` for one `REV`/`REV:REV` token (modelled from
spec §4.1: an ascending set of concrete revisions, or `InvalidRevision`);
`save_ok` — whether persisting the classification change succeeds;
`log_ok` — whether appending a line to the persisted log succeeds;
`waiting_status` — `get_waiting_status` (modelled from the spec: the
next-instruction/outcome message for the current data, if any);
`argv` — `std::env::args()`, the literal command invocation. -/
structure Env where
  creds_ok : Bool
  wc_info : Option WcInfo
  resolve : String → Except SvErr (Finset Rev)
  save_ok : Bool
  log_ok : Bool
  waiting_status : BisectData → Option String
  argv : List String

/-- The persisted session store: `none` when no session file exists. -/
abbrev Store := Option BisectData

/-- Modelled from the spec: `get_bisect_data` (used by `Skip::run` with the
comment "Ensure a bisect session has started"), whose source is not in the
repository snapshot — per §4.2, a command that requires an active session
fails with the `NoActiveSession` condition when the store is empty. -/
def get_bisect_data (store : Store) : Except SvErr BisectData :=
  match store with
  | none => Except.error SvErr.noActiveSession
  | some d => Except.ok d

/-- Modelled from the spec: `mark_skipped_revisions`, whose source is not
in the repository snapshot — load the session, move the revisions into
`skip` (§4.2 `mark_skipped`), and save; the save may fail, in which case
the persisted state is unchanged. -/
def mark_skipped_revisions (env : Env) (revs : Finset Rev) (store : Store) :
    Except SvErr Store :=
  match store with
  | none => Except.error SvErr.noActiveSession
  | some d =>
      if env.save_ok then Except.ok (some (mark_skipped revs d))
      else Except.error SvErr.saveFailed

/-- Modelled from the spec: `append_to_log` (§4.2 `append_log`), whose
source is not in the repository snapshot — append one raw line to the
persisted log; the append may fail, in which case the persisted state is
unchanged. -/
def append_to_log (env : Env) (line : String) (store : Store) :
    Except SvErr Store :=
  match store with
  | none => Except.error SvErr.noActiveSession
  | some d =>
      if env.log_ok then Except.ok (some { d with log := d.log ++ [line] })
      else Except.error SvErr.saveFailed

/-- Modelled from the spec: `log_bisect_command`, whose source is not in
the repository snapshot — append the literal command invocation (the
process's argument list as one line) to the log. -/
def log_bisect_command (env : Env) (args : List String) (store : Store) :
    Except SvErr Store :=
  append_to_log env (String.intercalate " " args) store

/-- Resolution of all `REV|REV:REV` arguments of `Skip::run`: the union of
`gather_revisions` over the argument list (the `for rev in &self.revisions`
loop of `skip.rs`). -/
def gatherAll (env : Env) (revisions : List String) :
    Except SvErr (Finset Rev) :=
  revisions.foldlM (fun acc rev => do
    let rs ← env.resolve rev
    pure (acc ∪ rs)) (∅ : Finset Rev)

/-- Shallow embedding of `Skip::run` (`src/commands/bisect/skip.rs`).
The command: gets credentials, verifies the working copy, ensures a bisect
session exists, gathers the revisions of all arguments (defaulting to the
working copy's current revision when none resolve), marks them skipped,
appends the invocation to the log, reloads the data and, when a waiting
status exists, logs it as a comment and prints it.  The result pairs the
store as persisted after the command (unchanged prefix on failure) with
either the printed lines or the error. -/
def skipRun (env : Env) (revisions : List String) (store : Store) :
    Store × Except SvErr (List String) :=
  if env.creds_ok = false then (store, Except.error SvErr.credentialsFailed)
  else
    match env.wc_info with
    | none => (store, Except.error SvErr.notAWorkingCopy)
    | some wc_info =>
      match get_bisect_data store with
      | Except.error e => (store, Except.error e)
      | Except.ok _ =>
        match gatherAll env revisions with
        | Except.error e => (store, Except.error e)
        | Except.ok gathered =>
          let skipped :=
            if gathered = ∅ then {wc_info.commit_rev} else gathered
          match mark_skipped_revisions env skipped store with
          | Except.error e => (store, Except.error e)
          | Except.ok store1 =>
            match log_bisect_command env env.argv store1 with
            | Except.error e => (store1, Except.error e)
            | Except.ok store2 =>
              match get_bisect_data store2 with
              | Except.error e => (store2, Except.error e)
              | Except.ok data =>
                match env.waiting_status data with
                | none => (store2, Except.ok [])
                | some status =>
                  match append_to_log env ("# " ++ status) store2 with
                  | Except.error e => (store2, Except.error e)
                  | Except.ok store3 => (store3, Except.ok [status])

/-- Shallow embedding of `do_work` (`src/commands/bisect/good.rs`).  The
function ignores its `revision` option, checks that it runs inside a
working copy, and then — `if true { Ok(()) } else { Err(General("Failed..")) }`
— returns success without doing anything else.  The store is threaded
through unchanged to make explicit that the session state is never read or
written. -/
def goodDoWork (_opt_revision : Option String) (env : Env) (store : Store) :
    Store × Except SvErr Unit :=
  match env.wc_info with
  | none => (store, Except.error SvErr.notAWorkingCopy)
  | some _ =>
    if true then (store, Except.ok ())
    else (store, Except.error (SvErr.general "Failed.."))

/-! ## Replayer (spec §4.5) -/

/-- Modelled from the spec: the external `/bin/sh` interpreter invoked by
`Replay::run` (not part of this repository).  A script is abstracted to the
list of success bits of its command lines.  Without `set -e`, the shell
runs every command in sequence regardless of earlier failures, and the
script's overall exit status is the exit status of its *last* command (an
empty script exits successfully). -/
def shScriptOk (script : List Bool) : Bool :=
  script.foldl (fun _ c => c) true

/-- The message of the `ReplayFailed` condition as reported by the code
(`SvError::General` in `replay.rs`). -/
def replayFailedMsg : String := "Log replay did not finish successfully"

/-- Shallow embedding of `Replay::run` (`src/commands/bisect/replay.rs`).
The command verifies the working copy, then hands the whole log file to
`/bin/sh` (run from the working-copy root with inherited output streams)
and checks only the overall exit status: success yields `Ok(())`, anything
else the `ReplayFailed` condition. -/
def replayRun (env : Env) (script : List Bool) : Except SvErr Unit :=
  match env.wc_info with
  | none => Except.error SvErr.notAWorkingCopy
  | some _ =>
    if shScriptOk script then Except.ok ()
    else Except.error (SvErr.general replayFailedMsg)

/-- A concrete environment inside a working copy, used for the replay
counterexample. -/
def envReplay : Env :=
  { creds_ok := true
    wc_info := some ⟨"/wc", 7⟩
    resolve := fun tok => Except.error (SvErr.invalidRevision tok)
    save_ok := true
    log_ok := true
    waiting_status := fun _ => none
    argv := ["svu", "bisect", "replay", "log.txt"] }

/-- Claim C6, as stated, is false at this snapshot: a replayed log whose
first command fails but whose last command succeeds.  `/bin/sh` (without
`errexit`) neither stops at the failing command nor propagates its status,
so the shell exits successfully and `Replay::run` returns success — the
command does not stop and report `ReplayFailed` when a replayed command
fails. -/
theorem c6_replay_intermediate_failure_counterexample :
    replayRun envReplay [false, true] = Except.ok () ∧
    false ∈ [false, true] := by
  constructor
  · rfl
  · decide

/-- Claim C6, amended: the `replay` command executes the whole log file through the
shell from the working copy root with inherited standard output/error and
judges only the overall execution: it succeeds when the shell execution as
a whole exits successfully (the status of the script's last command) and
fails with the `ReplayFailed` condition (`General("Log replay did not
finish successfully")`) when it does not; a failing intermediate command
neither stops the replay nor, by itself, makes it fail. -/
theorem c6_replay_overall_exit_status (env : Env) (script : List Bool)
    (wi : WcInfo) (hw : env.wc_info = some wi) :
    (shScriptOk script = true → replayRun env script = Except.ok ()) ∧
    (shScriptOk script = false →
      replayRun env script = Except.error (SvErr.general replayFailedMsg)) := by
  constructor
  · intro h
    rw [replayRun, hw]
    simp [h]
  · intro h
    rw [replayRun, hw]
    simp [h]

/-- Witness for `c6_replay_overall_exit_status`: a script whose last
command fails is reported as `ReplayFailed`. -/
theorem c6_replay_overall_exit_status_witness :
    replayRun envReplay [true, false] =
      Except.error (SvErr.general replayFailedMsg) :=
  (c6_replay_overall_exit_status envReplay [true, false] ⟨"/wc", 7⟩ rfl).2 rfl

/-! ## Theorems about the session commands -/

/-- A concrete environment inside a working copy at revision 5, with all
I/O succeeding. -/
def envGood : Env :=
  { creds_ok := true
    wc_info := some ⟨"/wc", 5⟩
    resolve := fun _ => Except.ok ∅
    save_ok := true
    log_ok := true
    waiting_status := fun _ => some "The next revision to test is 10"
    argv := ["svu", "bisect", "good", "3"] }

/-- An active session: revision 10 already classified bad. -/
def dGood : BisectData := ⟨∅, {10}, ∅, ["svu bisect bad 10"]⟩

/-- Claim C1 fails on the code: `do_work` of the `good` command, run inside a
working copy with an active session and the explicit revision argument `3`,
returns success while leaving the session state untouched: revision 3 is
not classified good, the log records nothing, and no selector outcome is
computed or printed — the function ignores its argument and does nothing
beyond the working-copy check. -/
theorem c1_good_cmd_classifies_nothing :
    goodDoWork (some "3") envGood (some dGood) = (some dGood, Except.ok ()) ∧
    (3 : Rev) ∉ dGood.good ∧
    dGood.log = ["svu bisect bad 10"] := by
  refine ⟨rfl, ?_, rfl⟩
  decide

/-- Claim C4 fails on the code for `good`: with no session store at all,
`skip` does fail with the `NoActiveSession` condition (via
`get_bisect_data`), but the `good` command succeeds without consulting the
session store at all, instead of failing with `NoActiveSession`. -/
theorem c4_good_no_session_succeeds :
    goodDoWork none envGood none = (none, Except.ok ()) ∧
    (skipRun envGood [] none).2 = Except.error SvErr.noActiveSession ∧
    get_bisect_data none = (Except.error SvErr.noActiveSession :
      Except SvErr BisectData) :=
  ⟨rfl, rfl, rfl⟩

/-- Claim C3: In `Skip::run`, the command invocation is logged only after
the classification change has been saved: whenever the classification save
fails, the command terminates with an error and the persisted store — its
log included — is exactly what it was before the command, so the log does
not record the command. -/
theorem c3_log_only_after_successful_save (env : Env)
    (revisions : List String) (store : Store) (h : env.save_ok = false) :
    (skipRun env revisions store).1 = store ∧
    ∃ e, (skipRun env revisions store).2 = Except.error e := by
  unfold skipRun
  by_cases hcr : env.creds_ok = false
  · rw [if_pos hcr]
    exact ⟨rfl, _, rfl⟩
  · rw [if_neg hcr]
    cases hwc : env.wc_info with
    | none => exact ⟨rfl, _, rfl⟩
    | some wi =>
      cases store with
      | none => exact ⟨rfl, _, rfl⟩
      | some d =>
        cases hga : gatherAll env revisions with
        | error e => exact ⟨rfl, _, rfl⟩
        | ok gathered =>
          have hm : mark_skipped_revisions env
              (if gathered = ∅ then {wi.commit_rev} else gathered) (some d) =
              Except.error SvErr.saveFailed := by
            simp [mark_skipped_revisions, h]
          simp only [hm]
          exact ⟨rfl, _, rfl⟩

/-- A concrete environment whose classification save fails. -/
def envSaveFail : Env :=
  { creds_ok := true
    wc_info := some ⟨"/wc", 5⟩
    resolve := fun _ => Except.ok ∅
    save_ok := false
    log_ok := true
    waiting_status := fun _ => none
    argv := ["svu", "bisect", "skip"] }

/-- Witness for `c3_log_only_after_successful_save`: with the save failing,
`skip` leaves the store (log included) unchanged and errors. -/
theorem c3_log_only_after_successful_save_witness :
    (skipRun envSaveFail [] (some dGood)).1 = some dGood ∧
    ∃ e, (skipRun envSaveFail [] (some dGood)).2 = Except.error e :=
  c3_log_only_after_successful_save envSaveFail [] (some dGood) rfl

/-- The session data as persisted by a successful `skip`, before any
waiting-status comment: the gathered revisions (or, when none were
gathered, the working copy's current revision) moved into `skip`, and the
literal command invocation appended to the log. -/
def skipResultData (env : Env) (wi : WcInfo) (rs : Finset Rev)
    (d : BisectData) : BisectData :=
  let d1 := mark_skipped (if rs = ∅ then {wi.commit_rev} else rs) d
  { d1 with log := d1.log ++ [String.intercalate " " env.argv] }

/-- The full result of a successful `skip`: the persisted data of
`skipResultData`, plus — when a waiting status exists for it — that status
logged as a comment line and printed. -/
def skipSpecResult (env : Env) (wi : WcInfo) (rs : Finset Rev)
    (d : BisectData) : Store × Except SvErr (List String) :=
  let d2 := skipResultData env wi rs d
  match env.waiting_status d2 with
  | none => (some d2, Except.ok [])
  | some s => (some { d2 with log := d2.log ++ ["# " ++ s] }, Except.ok [s])

/-- Claim C7: Inside an active session, with credentials available and all
saves succeeding, `Skip::run` with arguments resolving to the revision set
`rs` produces exactly `skipSpecResult`: every revision the arguments
resolve to is marked skipped; when no arguments are given, exactly the
current working-copy revision is marked skipped; and when the selector has
a next instruction for the resulting data, that instruction is printed. -/
theorem c7_skip_marks_and_reports (env : Env) (revisions : List String)
    (wi : WcInfo) (rs : Finset Rev) (d : BisectData)
    (hc : env.creds_ok = true) (hw : env.wc_info = some wi)
    (hg : gatherAll env revisions = Except.ok rs)
    (hs : env.save_ok = true) (hl : env.log_ok = true) :
    skipRun env revisions (some d) = skipSpecResult env wi rs d ∧
    (∀ r ∈ rs, r ∈ (skipResultData env wi rs d).skip) ∧
    (revisions = [] →
      (skipResultData env wi rs d).skip = d.skip ∪ {wi.commit_rev}) ∧
    (∀ s, env.waiting_status (skipResultData env wi rs d) = some s →
      (skipRun env revisions (some d)).2 = Except.ok [s]) := by
  have hrun : skipRun env revisions (some d) = skipSpecResult env wi rs d := by
    unfold skipRun mark_skipped_revisions log_bisect_command append_to_log
      get_bisect_data
    rw [hc, hw, hg, hs, hl]
    rfl
  refine ⟨hrun, ?_, ?_, ?_⟩
  · intro r hr
    by_cases hrs : rs = ∅
    · subst hrs; exact absurd hr (Finset.not_mem_empty r)
    · simp only [skipResultData, mark_skipped, hrs, if_false]
      exact Finset.mem_union_right _ hr
  · intro hnil
    subst hnil
    have h0 : (Except.ok (∅ : Finset Rev) : Except SvErr (Finset Rev)) =
        Except.ok rs := hg
    have hrs : rs = ∅ := by injection h0 with h0'; exact h0'.symm
    subst hrs
    simp [skipResultData, mark_skipped]
  · intro s hws
    rw [hrun]
    simp only [skipSpecResult, hws]

/-- A concrete environment for the `skip` witness: working copy at
revision 7, every revision token resolving to `{5, 6}`, all I/O
succeeding, and a waiting status available for every data state. -/
def envSkipW : Env :=
  { creds_ok := true
    wc_info := some ⟨"/wc", 7⟩
    resolve := fun _ => Except.ok {5, 6}
    save_ok := true
    log_ok := true
    waiting_status := fun _ => some "The next revision to test is 4"
    argv := ["svu", "bisect", "skip", "5:6"] }

/-- An active session for the `skip` witness. -/
def dSkipW : BisectData := ⟨{1}, {9}, ∅, ["svu bisect start"]⟩

/-- Witness for `c7_skip_marks_and_reports`: skipping the range `5:6`
marks revision 5 skipped and prints the waiting status. -/
theorem c7_skip_marks_and_reports_witness :
    (5 : Rev) ∈ (skipResultData envSkipW ⟨"/wc", 7⟩ (∅ ∪ {5, 6}) dSkipW).skip ∧
    (skipRun envSkipW ["5:6"] (some dSkipW)).2 =
      Except.ok ["The next revision to test is 4"] := by
  have h := c7_skip_marks_and_reports envSkipW ["5:6"] ⟨"/wc", 7⟩ (∅ ∪ {5, 6})
    dSkipW rfl rfl rfl rfl rfl
  exact ⟨h.2.1 5 (by decide), h.2.2.2 "The next revision to test is 4" rfl⟩

/-- Claim C8: When the current directory is not inside a working copy (and
credentials are available, which `skip` checks first), each of the three
embedded session commands fails with the `NotAWorkingCopy` condition; the
session store plays no part: it is returned untouched and the outcome is
the same for every possible store, so the failure happens before any
access to the session store. -/
theorem c8_working_copy_check_before_store (env : Env)
    (revisions : List String) (script : List Bool) (opt_rev : Option String)
    (store : Store)
    (hc : env.creds_ok = true) (hw : env.wc_info = none) :
    skipRun env revisions store = (store, Except.error SvErr.notAWorkingCopy) ∧
    goodDoWork opt_rev env store =
      (store, Except.error SvErr.notAWorkingCopy) ∧
    replayRun env script = Except.error SvErr.notAWorkingCopy := by
  refine ⟨?_, ?_, ?_⟩
  · unfold skipRun
    rw [hc, hw]
    rfl
  · unfold goodDoWork
    rw [hw]
  · unfold replayRun
    rw [hw]

/-- A concrete environment outside any working copy. -/
def envNoWc : Env :=
  { creds_ok := true
    wc_info := none
    resolve := fun _ => Except.ok ∅
    save_ok := true
    log_ok := true
    waiting_status := fun _ => none
    argv := ["svu", "bisect", "skip"] }

/-- Witness for `c8_working_copy_check_before_store`: outside a working
copy, `skip`, `good` and `replay` all fail with `NotAWorkingCopy`, with
the store untouched. -/
theorem c8_working_copy_check_before_store_witness :
    skipRun envNoWc [] none = (none, Except.error SvErr.notAWorkingCopy) ∧
    goodDoWork none envNoWc none =
      (none, Except.error SvErr.notAWorkingCopy) ∧
    replayRun envNoWc [true] = Except.error SvErr.notAWorkingCopy :=
  c8_working_copy_check_before_store envNoWc [] [true] none none rfl rfl

/-! ## The per-working-copy data directory (`data_directory`, src/util.rs) -/

/-- A model of the directory state `data_directory` manipulates: a finite
association of directory paths to their contents (a list of file names).
A path is a directory exactly when it has an entry. -/
structure Fs where
  dirs : List (String × List String)
deriving DecidableEq

/-- The model's `Path::is_dir`. -/
def Fs.isDir (fs : Fs) (p : String) : Bool := (fs.dirs.lookup p).isSome

/-- The contents of a directory, when it exists. -/
def Fs.contents (fs : Fs) (p : String) : Option (List String) :=
  fs.dirs.lookup p

/-- The model's `std::fs::rename`: every entry at `src` is re-keyed to
`dst`, keeping its contents. -/
def Fs.rename (fs : Fs) (src dst : String) : Fs :=
  ⟨fs.dirs.map (fun e => if e.1 = src then (dst, e.2) else e)⟩

/-- The model's `std::fs::create_dir`: a fresh empty directory. -/
def Fs.createDir (fs : Fs) (p : String) : Fs := ⟨(p, []) :: fs.dirs⟩

/-- Shallow embedding of `data_directory` (`src/util.rs`): resolve the
working copy (failing otherwise), and ensure a `.svu` directory exists at
its root — if it does not, rename a legacy `.sv` directory to `.svu` when
one exists, and create a fresh `.svu` directory otherwise; return the
`.svu` path. -/
def data_directory (wc_root : Option String) (fs : Fs) :
    Except SvErr (Fs × String) :=
  match wc_root with
  | none => Except.error SvErr.notAWorkingCopy
  | some root =>
    let path := root ++ "/.svu"
    if fs.isDir path then Except.ok (fs, path)
    else
      let prev_path := root ++ "/.sv"
      if fs.isDir prev_path then Except.ok (fs.rename prev_path path, path)
      else Except.ok (fs.createDir path, path)

lemma lookup_rename_dst (l : List (String × List String)) (src dst : String)
    (hdst : l.lookup dst = none) :
    (l.map (fun e => if e.1 = src then (dst, e.2) else e)).lookup dst =
      l.lookup src := by
  induction l with
  | nil => rfl
  | cons a t ih =>
      obtain ⟨k, v⟩ := a
      have hdk : ¬(dst = k) := by
        intro hcontra
        rw [List.lookup_cons, show (dst == k) = true from beq_iff_eq.mpr hcontra]
          at hdst
        exact Option.noConfusion hdst
      have hdt : t.lookup dst = none := by
        rw [List.lookup_cons, beq_eq_false_iff_ne.mpr hdk] at hdst
        exact hdst
      by_cases hk : k = src
      · subst hk
        simp [List.lookup_cons, beq_eq_false_iff_ne.mpr hdk]
      · have hsk : ¬(src = k) := fun hcontra => hk hcontra.symm
        simp [List.lookup_cons, hk, beq_eq_false_iff_ne.mpr hdk,
          beq_eq_false_iff_ne.mpr hsk, ih hdt]

lemma lookup_rename_src (l : List (String × List String)) (src dst : String)
    (hne : src ≠ dst) :
    (l.map (fun e => if e.1 = src then (dst, e.2) else e)).lookup src =
      none := by
  induction l with
  | nil => rfl
  | cons a t ih =>
      obtain ⟨k, v⟩ := a
      by_cases hk : k = src
      · subst hk
        simp [List.lookup_cons, beq_eq_false_iff_ne.mpr hne, ih]
      · have hsk : ¬(src = k) := fun hcontra => hk hcontra.symm
        simp [List.lookup_cons, hk, beq_eq_false_iff_ne.mpr hsk, ih]

/-- Claim C9: When the working copy root has no current-name (`.svu`) data
directory: if the legacy-name (`.sv`) directory exists, `data_directory`
renames it in place to `.svu` — the renamed directory has exactly the
legacy directory's contents and the legacy name is gone — and otherwise it
creates a fresh empty `.svu` directory; in both cases it returns the
`.svu` path. -/
theorem c9_data_directory_migration (root : String) (fs : Fs)
    (h : fs.isDir (root ++ "/.svu") = false) :
    (fs.isDir (root ++ "/.sv") = true →
      data_directory (some root) fs =
        Except.ok (fs.rename (root ++ "/.sv") (root ++ "/.svu"),
          root ++ "/.svu") ∧
      (fs.rename (root ++ "/.sv") (root ++ "/.svu")).contents
          (root ++ "/.svu") = fs.contents (root ++ "/.sv") ∧
      (fs.rename (root ++ "/.sv") (root ++ "/.svu")).isDir
          (root ++ "/.sv") = false) ∧
    (fs.isDir (root ++ "/.sv") = false →
      data_directory (some root) fs =
        Except.ok (fs.createDir (root ++ "/.svu"), root ++ "/.svu") ∧
      (fs.createDir (root ++ "/.svu")).contents (root ++ "/.svu") =
        some []) := by
  have hdst : fs.dirs.lookup (root ++ "/.svu") = none := by
    have := h
    unfold Fs.isDir at this
    exact Option.not_isSome_iff_eq_none.mp (by simp [this])
  constructor
  · intro hsv
    have hne : (root ++ "/.sv") ≠ (root ++ "/.svu") := by
      intro hcontra
      rw [hcontra] at hsv
      rw [h] at hsv
      exact Bool.false_ne_true hsv
    refine ⟨?_, ?_, ?_⟩
    · simp [data_directory, h, hsv]
    · unfold Fs.contents Fs.rename
      exact lookup_rename_dst fs.dirs _ _ hdst
    · unfold Fs.isDir Fs.rename
      rw [lookup_rename_src fs.dirs _ _ hne]
      rfl
  · intro hsv
    refine ⟨?_, ?_⟩
    · simp [data_directory, h, hsv]
    · unfold Fs.contents Fs.createDir
      simp [List.lookup_cons]

/-- The file system of the migration witness: only the legacy `/wc/.sv`
directory exists, holding one session file. -/
def fsW : Fs := ⟨[("/wc/.sv", ["data.json"])]⟩

/-- Witness for `c9_data_directory_migration`: with only the legacy
directory present, `data_directory` renames it to `.svu` and its contents
survive the rename. -/
theorem c9_data_directory_migration_witness :
    data_directory (some "/wc") fsW =
      Except.ok (fsW.rename ("/wc" ++ "/.sv") ("/wc" ++ "/.svu"),
        "/wc" ++ "/.svu") ∧
    (fsW.rename ("/wc" ++ "/.sv") ("/wc" ++ "/.svu")).contents
        ("/wc" ++ "/.svu") = fsW.contents ("/wc" ++ "/.sv") := by
  have h := (c9_data_directory_migration "/wc" fsW (by decide)).1 (by decide)
  exact ⟨h.1, h.2.1⟩

/-! ## `parse_svn_date` (src/util.rs) -/

/-- The possible outcomes of a Rust function that may panic. -/
inductive PanicOr (α : Type)
  | panics
  | returns (a : α)
deriving DecidableEq

/-- Shallow embedding of `parse_svn_date` (`src/util.rs`).  The `chrono`
library is an external collaborator: `DateTime::parse_from_rfc3339` is
abstracted as the parameter `rfc3339_parse`, returning `some` timestamp on
a well-formed RFC 3339 input and `none` otherwise, and the total timezone
conversion `.with_timezone(&Local)` as `to_local`.  The code calls
`.unwrap()` on the parse result — "We assume all svn dates are well
formed!" — so a failed parse is a panic, not an error return. -/
def parse_svn_date (rfc3339_parse : String → Option Int)
    (to_local : Int → Int) (date_str : String) : PanicOr Int :=
  match rfc3339_parse date_str with
  | none => PanicOr.panics
  | some d => PanicOr.returns (to_local d)

/-- Claim C10: For every input the RFC 3339 parser rejects, `parse_svn_date`
panics instead of returning an error value; it returns a value exactly on
the inputs the parser accepts. -/
theorem c10_parse_svn_date_panics (rfc3339_parse : String → Option Int)
    (to_local : Int → Int) (s : String) :
    (rfc3339_parse s = none →
      parse_svn_date rfc3339_parse to_local s = PanicOr.panics) ∧
    (∀ d, rfc3339_parse s = some d →
      parse_svn_date rfc3339_parse to_local s =
        PanicOr.returns (to_local d)) := by
  constructor
  · intro h
    simp [parse_svn_date, h]
  · intro d h
    simp [parse_svn_date, h]

/-- Witness for `c10_parse_svn_date_panics`: under a parser rejecting
every input, `parse_svn_date` panics on `"not a date"`. -/
theorem c10_parse_svn_date_panics_witness :
    parse_svn_date (fun _ => none) id "not a date" = PanicOr.panics :=
  (c10_parse_svn_date_panics (fun _ => none) id "not a date").1 rfl

end SvBisect
